import Mathlib

/-!
Verification development for the Moodify multi-provider music-discovery
aggregator.

The TypeScript source is shallowly embedded in Lean:
* JS numbers are modelled as `ℚ` (all arithmetic in the embedded code is
  exact on the inputs considered; `Math.log10` and `new Date(s).getTime()`
  are transcendental/platform functions and are passed as explicit
  function parameters `lg : ℚ → ℚ` and `dateVal : String → ℚ`).
* `Date.now()` and `Math.random()` are impure reads; they become explicit
  arguments (`now`, `rand`, elapsed `searchTime`).
* Network calls (provider HTTP endpoints) become oracle-function
  parameters; an adapter outcome models a settled promise (fulfilled or
  rejected).
* JS `Array.prototype.sort` (ES2019+: stable) with comparator
  `(a, b) => b.score - a.score` orders descending by score with ties kept
  in original order; a stable sort with a total relation is extensionally
  unique, so it is modelled by `List.insertionSort` with the relation
  `b.score ≤ a.score`.
-/

/-- JS `String.prototype.toLowerCase` on the ASCII strings the code uses. -/
def jsToLower (s : String) : String := String.mk (s.data.map Char.toLower)

/-- Is `pre` a prefix of the second list? (helper for the substring test) -/
def listStartsWith [DecidableEq α] : List α → List α → Bool
  | [], _ => true
  | _ :: _, [] => false
  | a :: as, b :: bs => a = b && listStartsWith as bs

/-- Does the second list contain the first one as a contiguous sublist? -/
def listHasSub [DecidableEq α] (needle : List α) : List α → Bool
  | [] => needle.isEmpty
  | b :: bs => listStartsWith needle (b :: bs) || listHasSub needle bs

/-- JS `s.includes(sub)` (substring containment). -/
def jsIncludes (s sub : String) : Bool := listHasSub sub.data s.data

/-- JS `s.split(' ')[0]` (the string before the first space; the whole
string when there is no space; `""` for the empty string). -/
def firstWord (s : String) : String :=
  String.mk (s.data.takeWhile (fun c => c ≠ ' '))

/-- Maximal runs of characters not satisfying `p` (accumulator holds the
current run reversed). -/
def splitRunsAux (p : Char → Bool) : List Char → List Char → List (List Char)
  | [], acc => if acc.isEmpty then [] else [acc.reverse]
  | c :: cs, acc =>
    if p c then
      if acc.isEmpty then splitRunsAux p cs []
      else acc.reverse :: splitRunsAux p cs []
    else splitRunsAux p cs (c :: acc)

/-- JS `s.split(/\s+/)`: the whitespace-separated words of `s`. (JS also
emits one leading `""` token when the string starts with whitespace; every
use in the source immediately filters by `word.length > 2`, which drops
that token, so it is not modelled.) -/
def jsSplitWs (s : String) : List String :=
  (splitRunsAux Char.isWhitespace s.data []).map String.mk

/-- The JS keep-the-first-occurrence dedup pattern
`arr.filter((x, i, arr) => arr.findIndex(y => key y = key x) === i)`:
an element is kept iff no earlier element has the same key. -/
def keepFirstByAux [DecidableEq β] (key : α → β) (seen : List β) :
    List α → List α
  | [] => []
  | a :: as =>
    if key a ∈ seen then keepFirstByAux key seen as
    else a :: keepFirstByAux key (key a :: seen) as

/-- Entry point of the keep-first dedup (no key seen yet). -/
def keepFirstBy [DecidableEq β] (key : α → β) (l : List α) : List α :=
  keepFirstByAux key [] l

/-- One keyword-table scan of the parsers: JS
`for (const [name, keywords] of Object.entries(table)) { if (keywords.some(k => input.includes(k))) { detected = name; break; } }`.
Returns the first category whose keyword list has a substring match. -/
def detectFirst (tables : List (String × List String)) (input : String) :
    Option String :=
  tables.findSome? fun nk =>
    if nk.2.any (fun k => jsIncludes input k) then some nk.1 else none

/-! ### Keyword tables

The environment and speed tables are textually identical in the three
adapters (`YouTubeService.parseInput`, `SpotifyService.parseInput`,
`SoundCloudService.parseInput`); each adapter owns its own copy in the
source, we declare the shared text once. The vibe tables differ between
the Spotify adapter and the other two. -/

def environmentsTable : List (String × List String) :=
  [("gym", ["gym", "workout", "fitness", "training", "exercise"]),
   ("study", ["study", "focus", "concentration", "work", "office"]),
   ("party", ["party", "dance", "club", "celebration", "rave"]),
   ("sleep", ["sleep", "bedtime", "night", "relax", "calm"]),
   ("drive", ["drive", "car", "road", "travel", "cruise"]),
   ("cafe", ["cafe", "coffee", "background", "ambient"])]

def speedsTable : List (String × List String) :=
  [("slow", ["slow", "chill", "relaxed", "mellow", "downtempo", "peaceful"]),
   ("medium", ["medium", "moderate", "steady", "groove", "normal"]),
   ("fast", ["fast", "upbeat", "energetic", "high tempo", "uptempo", "intense"])]

/-- All speed trigger keywords (for stating "no speed keyword matches"). -/
def allSpeedKeywords : List String := (speedsTable.map Prod.snd).flatten

/-- Vibe table of `YouTubeService.parseInput` and
`SoundCloudService.parseInput`. -/
def ytVibesTable : List (String × List String) :=
  [("sad", ["sad", "melancholy", "depressing", "emotional", "crying"]),
   ("happy", ["happy", "joyful", "cheerful", "positive", "uplifting"]),
   ("chill", ["chill", "lofi", "calm", "peaceful", "zen"]),
   ("energetic", ["energetic", "hype", "pump", "motivational", "power"]),
   ("romantic", ["romantic", "love", "heart", "valentine", "couple"]),
   ("dark", ["dark", "gothic", "scary", "horror", "evil"])]

/-- Vibe table of `SpotifyService.parseInput` (slightly larger keyword
sets than the YouTube/SoundCloud one — intentional per-provider tuning). -/
def spotifyVibesTable : List (String × List String) :=
  [("sad", ["sad", "melancholy", "depressing", "emotional", "crying", "heartbreak"]),
   ("happy", ["happy", "joyful", "cheerful", "positive", "uplifting", "excited"]),
   ("chill", ["chill", "lofi", "calm", "peaceful", "zen", "ambient"]),
   ("energetic", ["energetic", "hype", "pump", "motivational", "power", "intense"]),
   ("romantic", ["romantic", "love", "heart", "valentine", "couple", "intimate"]),
   ("dark", ["dark", "gothic", "moody", "atmospheric", "mysterious"])]

/-- Genre table of `SpotifyService.parseInput`. -/
def spotifyGenresTable : List (String × List String) :=
  [("electronic", ["electronic", "edm", "house", "techno", "dubstep"]),
   ("hip-hop", ["hip hop", "rap", "trap", "hip-hop"]),
   ("rock", ["rock", "metal", "punk", "alternative"]),
   ("pop", ["pop", "mainstream", "chart"]),
   ("jazz", ["jazz", "swing", "blues"]),
   ("classical", ["classical", "orchestra", "symphony"]),
   ("folk", ["folk", "country", "acoustic"]),
   ("r&b", ["r&b", "soul", "funk"]),
   ("indie", ["indie", "independent", "underground"])]

/-- Anime keyword list of `YouTubeService.parseInput`. -/
def animeKeywords : List String :=
  ["anime", "naruto", "bleach", "one piece", "dragon ball", "attack on titan",
   "demon slayer", "my hero academia", "death note", "tokyo ghoul", "fullmetal",
   "cowboy bebop", "evangelion", "jojo", "hunter x hunter", "fairy tail",
   "sword art online", "japanese", "ost", "soundtrack", "opening", "ending",
   "op", "ed", "theme song", "shippuden", "boruto", "chakra", "ninja",
   "sasuke", "sakura", "kakashi", "itachi", "madara", "hokage"]

/-! ### Intent parsers -/

/-- `ParsedInput` of `SpotifyService` (`src/unnamed/part_005`). The TS
string-literal unions (`energy`, `valence`) are modelled as strings. -/
structure SpotifyParsedInput where
  vibe : String
  environment : String
  speed : String
  energy : String
  valence : String
  genre : String
deriving DecidableEq, Repr

/-- `SpotifyService.parseInput`. -/
def spotifyParseInput (vibeInput : String) : SpotifyParsedInput :=
  let input := jsToLower vibeInput
  let detectedEnvironment := (detectFirst environmentsTable input).getD ""
  let detectedSpeed := (detectFirst speedsTable input).getD "medium"
  let detectedVibe := (detectFirst spotifyVibesTable input).getD ""
  let energy :=
    if detectedSpeed = "fast" then "high"
    else if detectedSpeed = "slow" then "low" else "medium"
  let valence :=
    if (["sad", "dark"] : List String).contains detectedVibe then "negative"
    else if (["happy", "energetic"] : List String).contains detectedVibe then
      "positive"
    else "neutral"
  let genre := (detectFirst spotifyGenresTable input).getD ""
  { vibe := if detectedVibe ≠ "" then detectedVibe else firstWord vibeInput
    environment := detectedEnvironment
    speed := detectedSpeed
    energy := energy
    valence := valence
    genre := genre }

/-- `ParsedInput` of `YouTubeService` (`src/src/lib/youtube.ts`). -/
structure YtParsedInput where
  vibe : String
  environment : String
  speed : String
  isAnime : Bool
  genre : String
deriving DecidableEq, Repr

/-- `YouTubeService.parseInput`. (The local `isNightRain` of the source
is computed but never used, so it is not modelled.) -/
def ytParseInput (vibeInput : String) : YtParsedInput :=
  let input := jsToLower vibeInput
  let isAnime := animeKeywords.any (fun k => jsIncludes input k)
  let detectedEnvironment := (detectFirst environmentsTable input).getD ""
  let detectedSpeed := (detectFirst speedsTable input).getD ""
  let detectedVibe := (detectFirst ytVibesTable input).getD ""
  let genre :=
    if jsIncludes input "lofi" ∨
        (detectedVibe = "chill" ∧ detectedEnvironment = "study") then "lofi"
    else if jsIncludes input "edm" ∨ jsIncludes input "electronic" then "EDM"
    else if isAnime then "anime"
    else ""
  { vibe := if detectedVibe ≠ "" then detectedVibe else firstWord vibeInput
    environment := detectedEnvironment
    speed := detectedSpeed
    isAnime := isAnime
    genre := genre }

/-- `ParsedInput` of `SoundCloudService`
(`src/Moodify_clean/src/lib/spotify.ts`). -/
structure ScParsedInput where
  vibe : String
  environment : String
  speed : String
  genre : String
deriving DecidableEq, Repr

/-- `SoundCloudService.parseInput`. -/
def scParseInput (vibeInput : String) : ScParsedInput :=
  let input := jsToLower vibeInput
  let detectedEnvironment := (detectFirst environmentsTable input).getD ""
  let detectedSpeed := (detectFirst speedsTable input).getD ""
  let detectedVibe := (detectFirst ytVibesTable input).getD ""
  let genre :=
    if jsIncludes input "lofi" ∨
        (detectedVibe = "chill" ∧ detectedEnvironment = "study") then "lofi"
    else if jsIncludes input "edm" ∨ jsIncludes input "electronic" then
      "electronic"
    else if jsIncludes input "hip hop" ∨ jsIncludes input "rap" then "hip-hop"
    else if jsIncludes input "jazz" then "jazz"
    else if jsIncludes input "rock" then "rock"
    else ""
  { vibe := if detectedVibe ≠ "" then detectedVibe else firstWord vibeInput
    environment := detectedEnvironment
    speed := detectedSpeed
    genre := genre }

/-! ### YouTube query generation (uses `Math.random()`, passed as `rand`) -/

/-- The `animeTerms` array of `YouTubeService.generateSearchQuery`. -/
def animeTerms : List String :=
  ["opening", "ending", "OST", "theme", "bgm", "background music"]

/-- `YouTubeService.generateSearchQuery`. The single `Math.random()` draw
that the executed branch consumes is the explicit argument `rand`. -/
def ytGenerateSearchQuery (rand : ℚ) (vibeInput : String)
    (isRetry : Bool) : String :=
  let parsed := ytParseInput vibeInput
  let baseQuery :=
    if parsed.isAnime then
      let s := vibeInput ++ " OST soundtrack opening ending theme music"
      let idx := (Rat.floor (rand * (animeTerms.length : ℚ))).toNat
      s ++ " " ++ animeTerms.getD idx ""
    else if jsIncludes vibeInput "night" ∨ jsIncludes vibeInput "rain" then
      vibeInput ++ " lofi chill ambient rain sounds"
    else
      let musicType := if rand > mkRat 1 2 then "music" else "songs"
      let b := parsed.vibe ++ " " ++ musicType
      let b :=
        if parsed.environment ≠ "" then b ++ " " ++ parsed.environment else b
      if parsed.speed ≠ "" then b ++ " " ++ parsed.speed else b
  let baseQuery :=
    if parsed.genre ≠ "" then baseQuery ++ " " ++ parsed.genre else baseQuery
  let exclusions :=
    if isRetry then ["-tutorial", "-review", "-reaction"]
    else ["-tutorial", "-review", "-reaction", "-interview", "-vlog",
          "-news", "-documentary", "-podcast", "-talk", "-lecture"]
  baseQuery ++ " " ++ String.intercalate " " exclusions

/-! ### Aggregator data model (`src/unnamed/part_004`) -/

inductive MusicProvider where
  | youtube
  | soundcloud
  | spotify
deriving DecidableEq, Repr

/-- `UnifiedTrack` of the aggregator. TS optional fields become `Option`;
JS numbers become `ℚ`. -/
structure UnifiedTrack where
  id : String
  title : String
  artist : String
  duration : ℚ
  thumbnail : String
  publishedAt : String
  popularity : ℚ
  provider : MusicProvider
  streamUrl : Option String
  genre : Option String
  permalink : Option String
  waveformUrl : Option String
deriving DecidableEq, Repr

structure UnifiedSearchResponse where
  tracks : List UnifiedTrack
  totalResults : ℕ
  providers : List MusicProvider
  searchTime : ℚ
deriving DecidableEq, Repr

structure ProviderConfig where
  enabled : Bool
  priority : ℤ
  timeout : ℤ
deriving DecidableEq, Repr

/-- The `providers` object of `SearchConfig`; a JS object literal with the
three provider keys. Field order mirrors the insertion order of the
`defaultConfig` literal (spotify, youtube, soundcloud), which is the
`Object.entries` enumeration order. -/
structure ProvidersConfig where
  spotify : ProviderConfig
  youtube : ProviderConfig
  soundcloud : ProviderConfig
deriving DecidableEq, Repr

structure SearchConfig where
  providers : ProvidersConfig
  maxResults : ℕ
  fallbackEnabled : Bool
deriving DecidableEq, Repr

/-- `Object.entries(searchConfig.providers)` in insertion order. -/
def providersEntries (cfg : SearchConfig) :
    List (MusicProvider × ProviderConfig) :=
  [(MusicProvider.spotify, cfg.providers.spotify),
   (MusicProvider.youtube, cfg.providers.youtube),
   (MusicProvider.soundcloud, cfg.providers.soundcloud)]

/-- The enabled providers sorted ascending by priority
(`filter(enabled).sort((a, b) => a[1].priority - b[1].priority).map(...)`;
`Array.prototype.sort` is stable, which `List.insertionSort` with a total
relation reproduces). -/
def enabledProvidersList (cfg : SearchConfig) : List MusicProvider :=
  ((providersEntries cfg).filter (fun e => e.2.enabled)).insertionSort
    (fun a b => a.2.priority ≤ b.2.priority) |>.map Prod.fst

/-! ### Provider-native track shapes and the aggregator transforms -/

/-- `YouTubeTrack` of `src/src/lib/youtube.ts`. -/
structure YouTubeTrack where
  videoId : String
  title : String
  channelTitle : String
  duration : ℚ
  thumbnail : String
  publishedAt : String
  viewCount : ℚ
deriving DecidableEq, Repr

/-- The SoundCloud adapter's track shape (fields that
`transformSoundCloudTrack` reads). -/
structure SoundCloudTrack where
  id : String
  title : String
  artist : String
  duration : ℚ
  thumbnail : String
  publishedAt : String
  playCount : ℚ
  genre : Option String
  permalink : String
  waveformUrl : Option String
deriving DecidableEq, Repr

/-- `SpotifyAudioFeatures` of `src/unnamed/part_005`. -/
structure SpotifyAudioFeatures where
  danceability : ℚ
  energy : ℚ
  key : ℤ
  loudness : ℚ
  mode : ℤ
  speechiness : ℚ
  acousticness : ℚ
  instrumentalness : ℚ
  liveness : ℚ
  valence : ℚ
  tempo : ℚ
  timeSignature : ℤ
deriving DecidableEq, Repr

/-- `SpotifyTrack` of `src/unnamed/part_005`. -/
structure SpotifyTrack where
  id : String
  title : String
  artist : String
  album : String
  duration : ℚ
  thumbnail : String
  previewUrl : String
  spotifyUrl : String
  popularity : ℚ
  releaseDate : String
  genres : List String
  audioFeatures : Option SpotifyAudioFeatures
deriving DecidableEq, Repr

/-- `UnifiedMusicService.transformYouTubeTrack`. -/
def transformYouTubeTrack (t : YouTubeTrack) : UnifiedTrack :=
  { id := t.videoId
    title := t.title
    artist := t.channelTitle
    duration := t.duration
    thumbnail := t.thumbnail
    publishedAt := t.publishedAt
    popularity := t.viewCount
    provider := MusicProvider.youtube
    streamUrl := some ("/api/youtube/stream/" ++ t.videoId)
    genre := none
    permalink := none
    waveformUrl := none }

/-- `UnifiedMusicService.transformSoundCloudTrack`. -/
def transformSoundCloudTrack (t : SoundCloudTrack) : UnifiedTrack :=
  { id := t.id
    title := t.title
    artist := t.artist
    duration := t.duration
    thumbnail := t.thumbnail
    publishedAt := t.publishedAt
    popularity := t.playCount
    provider := MusicProvider.soundcloud
    streamUrl := some ("/api/soundcloud/stream/" ++ t.id)
    genre := t.genre
    permalink := some t.permalink
    waveformUrl := t.waveformUrl }

/-- `UnifiedMusicService.transformSpotifyTrack`. -/
def transformSpotifyTrack (t : SpotifyTrack) : UnifiedTrack :=
  { id := t.id
    title := t.title
    artist := t.artist
    duration := t.duration
    thumbnail := t.thumbnail
    publishedAt := t.releaseDate
    popularity := t.popularity
    provider := MusicProvider.spotify
    streamUrl := some t.previewUrl
    genre := t.genres.head?
    permalink := some t.spotifyUrl
    waveformUrl := none }

/-- A settled adapter promise, as `UnifiedMusicService.searchProvider`
observes it: the race of the adapter call against the timeout either
rejects (adapter error or timeout fires first) or fulfils with a
response whose `tracks` field may be missing (`none`). -/
inductive AdapterOutcome (τ : Type) where
  | rejected (msg : String)
  | fulfilled (result : Option (List τ))
deriving DecidableEq, Repr

/-- One fixed set of provider responses for a search call (the
"fixed fake provider responses" of the spec's determinism property). -/
structure ProviderEnv where
  youtube : AdapterOutcome YouTubeTrack
  soundcloud : AdapterOutcome SoundCloudTrack
  spotify : AdapterOutcome SpotifyTrack

/-- Body of `UnifiedMusicService.searchProvider` for one provider: the
whole body sits in a `try { ... } catch { return []; }`, so a rejected
adapter promise (including a timeout) yields `[]`, a fulfilled response
without a `tracks` field yields `[]`, and otherwise the provider-specific
transform is mapped over the tracks. It never throws. -/
def searchProviderOutcome {τ : Type} (transform : τ → UnifiedTrack) :
    AdapterOutcome τ → List UnifiedTrack
  | AdapterOutcome.rejected _ => []
  | AdapterOutcome.fulfilled none => []
  | AdapterOutcome.fulfilled (some ts) => ts.map transform

/-- `UnifiedMusicService.searchProvider` (switching on the provider). -/
def searchProviderE (env : ProviderEnv) : MusicProvider → List UnifiedTrack
  | MusicProvider.youtube =>
    searchProviderOutcome transformYouTubeTrack env.youtube
  | MusicProvider.soundcloud =>
    searchProviderOutcome transformSoundCloudTrack env.soundcloud
  | MusicProvider.spotify =>
    searchProviderOutcome transformSpotifyTrack env.spotify

/-! ### Aggregator scoring and merge -/

/-- The dedup key of `mergeAndRankResults`:
`` `${track.title.toLowerCase()}-${track.artist.toLowerCase()}` ``. -/
def dedupKey (t : UnifiedTrack) : String :=
  jsToLower t.title ++ "-" ++ jsToLower t.artist

/-- `(Date.now() - publishedDate.getTime()) / (1000 * 60 * 60 * 24 * 30)`
of `UnifiedMusicService.scoreTrack`; `new Date(s).getTime()` is the
uninterpreted `dateVal`. -/
def monthsAgoOf (dateVal : String → ℚ) (now : ℚ) (publishedAt : String) : ℚ :=
  (now - dateVal publishedAt) / (1000 * 60 * 60 * 24 * 30)

/-- `UnifiedMusicService.scoreTrack`. `Math.log10` is the uninterpreted
parameter `lg`; `Date.now()` is `now`. The `default` branch of the
provider-preference switch is unreachable (the provider enum is total). -/
def scoreTrack (lg : ℚ → ℚ) (dateVal : String → ℚ) (now : ℚ)
    (track : UnifiedTrack) (searchContext : String) : ℚ :=
  let context := jsToLower searchContext
  let title := jsToLower track.title
  let maxPopularity : ℚ :=
    if track.provider = MusicProvider.youtube then 10000000 else 1000000
  let score : ℚ := min (lg (track.popularity + 1) / lg maxPopularity) 1 * 10
  let score := score + (match track.provider with
    | MusicProvider.spotify => (8 : ℚ)
    | MusicProvider.soundcloud => (5 : ℚ)
    | MusicProvider.youtube => (3 : ℚ))
  let searchWords := (jsSplitWs context).filter (fun w => 2 < w.length)
  let score :=
    score + 3 * (((searchWords.filter (fun w => jsIncludes title w)).length : ℕ) : ℚ)
  let durationMin := track.duration / 60
  let score :=
    if 3 ≤ durationMin ∧ durationMin ≤ 6 then score + 3
    else if 2 ≤ durationMin ∧ durationMin ≤ 8 then score + 2
    else if 10 < durationMin then score - 2
    else score
  let score := match track.genre with
    | some g => if jsIncludes context (jsToLower g) then score + 4 else score
    | none => score
  let score :=
    if monthsAgoOf dateVal now track.publishedAt < 12 then score + 2 else score
  score

/-- `UnifiedMusicService.mergeAndRankResults`: keep-first dedup on the
`(title, artist)` key, score, stable sort descending by score
(`sort((a, b) => b.score - a.score)`), take `maxResults`, strip the score. -/
def mergeAndRankResults (lg : ℚ → ℚ) (dateVal : String → ℚ) (now : ℚ)
    (allTracks : List UnifiedTrack) (searchContext : String)
    (maxResults : ℕ) : List UnifiedTrack :=
  let uniqueTracks := keepFirstBy dedupKey allTracks
  let scoredTracks :=
    uniqueTracks.map (fun t => (t, scoreTrack lg dateVal now t searchContext))
  let sorted := scoredTracks.insertionSort (fun a b => b.2 ≤ a.2)
  (sorted.take maxResults).map Prod.fst

/-! ### Aggregator orchestration -/

/-- The sequential phase loop of `UnifiedMusicService.searchMusic`.
`searchFn` is generic in order to embed the loop's `catch` branch
faithfully: on a thrown provider error the branch rethrows only in the
"single enabled provider and fallback disabled" case, otherwise it
continues with the next provider. (`searchMusic` instantiates `searchFn`
with `searchProvider`, which never throws.) A successful provider with a
non-empty track list is accumulated and marked used; accumulation stops
early when `maxResults` is reached and fallback is disabled. -/
def seqLoop (searchFn : MusicProvider → Except String (List UnifiedTrack))
    (fallbackEnabled : Bool) (maxResults : ℕ) (enabledCount : ℕ) :
    List MusicProvider → List UnifiedTrack → List MusicProvider →
    Except String (List UnifiedTrack × List MusicProvider)
  | [], allTracks, used => Except.ok (allTracks, used)
  | p :: rest, allTracks, used =>
    match searchFn p with
    | Except.error e =>
      if enabledCount = 1 ∧ fallbackEnabled = false then Except.error e
      else seqLoop searchFn fallbackEnabled maxResults enabledCount rest
        allTracks used
    | Except.ok tracks =>
      if 0 < tracks.length then
        let allTracks := allTracks ++ tracks
        let used := used ++ [p]
        if maxResults ≤ allTracks.length ∧ fallbackEnabled = false then
          Except.ok (allTracks, used)
        else seqLoop searchFn fallbackEnabled maxResults enabledCount rest
          allTracks used
      else seqLoop searchFn fallbackEnabled maxResults enabledCount rest
        allTracks used

/-- The sequential phase for a provider search function that never
throws (which is what `searchProvider` is); `seqLoop` instantiated at
`fun p => Except.ok (f p)` computes exactly this. -/
def seqLoopPure (f : MusicProvider → List UnifiedTrack) (fallbackEnabled : Bool)
    (maxResults : ℕ) :
    List MusicProvider → List UnifiedTrack × List MusicProvider →
    List UnifiedTrack × List MusicProvider
  | [], acc => acc
  | p :: rest, acc =>
    let tracks := f p
    if 0 < tracks.length then
      let allTracks := acc.1 ++ tracks
      let used := acc.2 ++ [p]
      if maxResults ≤ allTracks.length ∧ fallbackEnabled = false then
        (allTracks, used)
      else seqLoopPure f fallbackEnabled maxResults rest (allTracks, used)
    else seqLoopPure f fallbackEnabled maxResults rest acc

/-- State (accumulated tracks, contributing providers) after the
sequential phase of `searchMusic` on environment `env` and config `cfg`. -/
def seqResult (env : ProviderEnv) (cfg : SearchConfig) :
    List UnifiedTrack × List MusicProvider :=
  seqLoopPure (searchProviderE env) cfg.fallbackEnabled cfg.maxResults
    (enabledProvidersList cfg) ([], [])

/-- The parallel fallback phase of `UnifiedMusicService.searchMusic`:
`Promise.allSettled` over all enabled providers (settle-all: every
element is collected, a rejection never aborts the join), then each
fulfilled non-empty result whose provider is not yet marked used is
merged in, in enabled-list order. -/
def fallbackPhase (searchFn : MusicProvider → Except String (List UnifiedTrack))
    (enabled : List MusicProvider)
    (st : List UnifiedTrack × List MusicProvider) :
    List UnifiedTrack × List MusicProvider :=
  let parallelResults := enabled.map (fun p => (p, searchFn p))
  parallelResults.foldl
    (fun acc pr =>
      match pr.2 with
      | Except.error _ => acc
      | Except.ok v =>
        if 0 < v.length then
          if pr.1 ∉ acc.2 then (acc.1 ++ v, acc.2 ++ [pr.1]) else acc
        else acc)
    st

/-- `UnifiedMusicService.searchMusic` over a generic provider search
function (the effective, already-merged `SearchConfig` is passed;
`startTime`/`Date.now()` bookkeeping appears as the `searchTime`
argument). -/
def searchMusicGen (lg : ℚ → ℚ) (dateVal : String → ℚ)
    (searchFn : MusicProvider → Except String (List UnifiedTrack))
    (vibeInput : String) (cfg : SearchConfig) (now searchTime : ℚ) :
    Except String UnifiedSearchResponse :=
  let enabled := enabledProvidersList cfg
  if enabled.length = 0 then Except.error "No music providers enabled"
  else
    match seqLoop searchFn cfg.fallbackEnabled cfg.maxResults enabled.length
        enabled [] [] with
    | Except.error e => Except.error e
    | Except.ok st =>
      let st2 :=
        if st.1.length < 3 ∧ cfg.fallbackEnabled = true ∧ 1 < enabled.length
        then fallbackPhase searchFn enabled st
        else st
      let rankedTracks :=
        mergeAndRankResults lg dateVal now st2.1 vibeInput cfg.maxResults
      Except.ok
        { tracks := rankedTracks
          totalResults := rankedTracks.length
          providers := st2.2
          searchTime := searchTime }

/-- `UnifiedMusicService.searchMusic` proper: the provider search function
is `searchProvider`, whose body catches every adapter rejection and
returns `[]` (so the instantiated `searchFn` always fulfils). -/
def searchMusic (lg : ℚ → ℚ) (dateVal : String → ℚ) (env : ProviderEnv)
    (vibeInput : String) (cfg : SearchConfig) (now searchTime : ℚ) :
    Except String UnifiedSearchResponse :=
  searchMusicGen lg dateVal (fun p => Except.ok (searchProviderE env p))
    vibeInput cfg now searchTime

/-- Tracks of a `searchMusic` result (empty on the error outcome). -/
def respTracks (r : Except String UnifiedSearchResponse) : List UnifiedTrack :=
  match r with
  | Except.ok resp => resp.tracks
  | Except.error _ => []

/-- Contributing providers of a `searchMusic` result. -/
def respProviders (r : Except String UnifiedSearchResponse) :
    List MusicProvider :=
  match r with
  | Except.ok resp => resp.providers
  | Except.error _ => []

/-- Did the call fulfil (no error surfaced)? -/
def respIsOk (r : Except String UnifiedSearchResponse) : Bool :=
  match r with
  | Except.ok _ => true
  | Except.error _ => false

/-! ### Spotify adapter pipeline (`src/unnamed/part_005`) -/

/-- JS string truthiness fallback `v || d` for an optional string. -/
def jsOrDefault (v : Option String) (d : String) : String :=
  match v with
  | some s => if s = "" then d else s
  | none => d

/-- JS `String.prototype.trim` (character-level whitespace strip). -/
def jsTrim (s : String) : String :=
  String.mk
    (((s.data.dropWhile Char.isWhitespace).reverse.dropWhile
      Char.isWhitespace).reverse)

structure SpotifyResponse where
  tracks : List SpotifyTrack
  totalResults : ℕ
deriving DecidableEq, Repr

/-- The raw Spotify search item fields that `SpotifyService` reads
(nested `album` / `external_urls` / `artists` objects flattened to the
accessed paths, `Option` for possibly-missing pieces). -/
structure RawSpotifyItem where
  id : String
  name : Option String
  artistNames : Option (List String)
  albumName : Option String
  albumImageUrl : Option String
  albumGenres : Option (List String)
  albumReleaseDate : Option String
  duration_ms : Option ℚ
  preview_url : Option String
  externalUrlSpotify : Option String
  popularity : Option ℚ
deriving DecidableEq, Repr

/-- `SpotifyService.buildSearchQuery`; `new Date().getFullYear()` is the
explicit `currentYear`. -/
def spotifyBuildSearchQuery (currentYear : ℤ) (vibeInput : String) : String :=
  let parsed := spotifyParseInput vibeInput
  let query := if parsed.vibe ≠ "" then parsed.vibe else vibeInput
  let query :=
    if parsed.genre ≠ "" then query ++ " genre:" ++ parsed.genre else query
  let query :=
    query ++ " year:" ++ toString (currentYear - 5) ++ "-" ++
      toString currentYear
  jsTrim query

/-- `SpotifyService.calculateMoodScore`. The decimal literals 0.8, 0.3,
0.6, 0.2, 0.5 are written `mkRat n 10`. -/
def calculateMoodScore (track : SpotifyTrack) (searchContext : String) : ℚ :=
  let parsed := spotifyParseInput searchContext
  match track.audioFeatures with
  | none => 0
  | some features =>
    let targetEnergy : ℚ :=
      if parsed.energy = "high" then mkRat 8 10
      else if parsed.energy = "low" then mkRat 3 10 else mkRat 6 10
    let energyDiff := |features.energy - targetEnergy|
    let score := max 0 (5 - energyDiff * 10)
    let targetValence : ℚ :=
      if parsed.valence = "positive" then mkRat 8 10
      else if parsed.valence = "negative" then mkRat 2 10 else mkRat 5 10
    let valenceDiff := |features.valence - targetValence|
    let score := score + max 0 (5 - valenceDiff * 10)
    let score :=
      if (["party", "dance", "gym"] : List String).contains parsed.environment
          ∨ (["energetic", "hype"] : List String).contains parsed.vibe then
        score + features.danceability * 3
      else score
    let score :=
      if (["study", "sleep", "cafe"] : List String).contains parsed.environment
          ∨ (["chill", "calm"] : List String).contains parsed.vibe then
        score + features.acousticness * 3
      else score
    let targetTempo : ℚ :=
      if parsed.speed = "fast" then 140
      else if parsed.speed = "slow" then 80 else 120
    let tempoDiff := |features.tempo - targetTempo| / 50
    score + max 0 (2 - tempoDiff)

/-- `SpotifyService.transformTrack`. -/
def spotifyTransformTrack (t : RawSpotifyItem)
    (audioFeatures : Option SpotifyAudioFeatures) : SpotifyTrack :=
  let artists :=
    match t.artistNames with
    | some l =>
      let s := String.intercalate ", " l
      if s = "" then "Unknown Artist" else s
    | none => "Unknown Artist"
  { id := t.id
    title := jsOrDefault t.name "Unknown Title"
    artist := artists
    album := jsOrDefault t.albumName "Unknown Album"
    duration := ((Rat.floor ((t.duration_ms).getD 0 / 1000) : ℤ) : ℚ)
    thumbnail := jsOrDefault t.albumImageUrl ""
    previewUrl := jsOrDefault t.preview_url ""
    spotifyUrl := jsOrDefault t.externalUrlSpotify ""
    popularity := (t.popularity).getD 0
    releaseDate := jsOrDefault t.albumReleaseDate ""
    genres := (t.albumGenres).getD []
    audioFeatures := audioFeatures }

/-- The preview filter predicate of `SpotifyService.searchMusic`:
`track.preview_url && track.preview_url.length > 0` (a missing or empty
preview URL is falsy). -/
def spotifyHasPreview (t : RawSpotifyItem) : Bool :=
  match t.preview_url with
  | some s => decide (0 < s.length)
  | none => false

/-- `SpotifyService.searchMusic`. The catalog search endpoint is the
oracle `searchO` (per query string; `none` models a response without
`tracks.items`), the audio-features batch endpoint is `featuresO`, and
`authOk` models whether token acquisition succeeds (on failure the
`catch` rethrows the fixed message). -/
def spotifySearchMusic (searchO : String → Option (List RawSpotifyItem))
    (featuresO : List String → List (Option SpotifyAudioFeatures))
    (authOk : Bool) (currentYear : ℤ) (vibeInput : String) :
    Except String SpotifyResponse :=
  if authOk = false then Except.error "Failed to search Spotify tracks"
  else
    let searchQuery := spotifyBuildSearchQuery currentYear vibeInput
    match searchO searchQuery with
    | none => Except.ok { tracks := [], totalResults := 0 }
    | some items =>
      if items.length = 0 then Except.ok { tracks := [], totalResults := 0 }
      else
        let tracksWithPreviews := items.filter spotifyHasPreview
        if tracksWithPreviews.length = 0 then
          Except.ok { tracks := [], totalResults := 0 }
        else
          let trackIds := tracksWithPreviews.map (fun t => t.id)
          let audioFeatures := featuresO trackIds
          let transformedTracks := tracksWithPreviews.mapIdx fun i t =>
            spotifyTransformTrack t ((audioFeatures.get? i).getD none)
          let scoredTracks := transformedTracks.map fun t =>
            (t, calculateMoodScore t vibeInput + t.popularity / 10)
          let sorted := scoredTracks.insertionSort (fun a b => b.2 ≤ a.2)
          let topTracks := (sorted.take 10).map Prod.fst
          Except.ok { tracks := topTracks, totalResults := topTracks.length }

/-- Track list of a Spotify adapter result (empty on the error outcome). -/
def spRespTracks (r : Except String SpotifyResponse) : List SpotifyTrack :=
  match r with
  | Except.ok resp => resp.tracks
  | Except.error _ => []

/-! ### YouTube adapter retry orchestration (`src/src/lib/youtube.ts`) -/

structure FilteredYouTubeResponse where
  tracks : List YouTubeTrack
  totalResults : ℕ
deriving DecidableEq, Repr

/-- `YouTubeService.searchMusic`: one initial `performSearch`; when it
yields fewer than 5 tracks, a broader retry; when still fewer than 5, a
`"... playlist mix"` variant whose results are unioned with the retry's,
deduplicated by `videoId` (keep-first), and cut to 10. `performSearch`
(network-bound) is the oracle `performO`, keyed by query input and retry
flag. -/
def ytSearchMusic (performO : String → Bool → FilteredYouTubeResponse)
    (vibeInput : String) : FilteredYouTubeResponse :=
  let result := performO vibeInput false
  if result.tracks.length < 5 then
    let result2 := performO vibeInput true
    if result2.tracks.length < 5 then
      let playlistQuery := vibeInput ++ " playlist mix"
      let playlistResult := performO playlistQuery true
      let combinedTracks := result2.tracks ++ playlistResult.tracks
      let uniqueTracks :=
        keepFirstBy (fun t : YouTubeTrack => t.videoId) combinedTracks
      { tracks := uniqueTracks.take 10, totalResults := uniqueTracks.length }
    else result2
  else result

/-! ### Concrete instantiations used by closed theorems

`Math.log10` and `new Date(s).getTime()` are uninterpreted in the
embedding; closed statements instantiate them with constant functions
(their value is irrelevant to each closed statement proved with them). -/

def lgZero : ℚ → ℚ := fun _ => 0

def dateValZero : String → ℚ := fun _ => 0

/-- The `defaultConfig` of the `UnifiedMusicService` constructor. -/
def defaultConfig : SearchConfig :=
  { providers :=
      { spotify := { enabled := true, priority := 1, timeout := 8000 }
        youtube := { enabled := true, priority := 2, timeout := 15000 }
        soundcloud := { enabled := false, priority := 3, timeout := 10000 } }
    maxResults := 10
    fallbackEnabled := true }

/-- A config with a single enabled provider and fallback kept enabled. -/
def cfgOnlySpotify : SearchConfig :=
  { providers :=
      { spotify := { enabled := true, priority := 1, timeout := 8000 }
        youtube := { enabled := false, priority := 2, timeout := 15000 }
        soundcloud := { enabled := false, priority := 3, timeout := 10000 } }
    maxResults := 10
    fallbackEnabled := true }

/-- A config with a single enabled provider and fallback disabled. -/
def cfgSingleNoFallback : SearchConfig :=
  { cfgOnlySpotify with fallbackEnabled := false }

/-- A config with no enabled provider. -/
def cfgNoneEnabled : SearchConfig :=
  { providers :=
      { spotify := { enabled := false, priority := 1, timeout := 8000 }
        youtube := { enabled := false, priority := 2, timeout := 15000 }
        soundcloud := { enabled := false, priority := 3, timeout := 10000 } }
    maxResults := 10
    fallbackEnabled := true }

/-- All three providers enabled, priorities 1/2/3, fallback enabled. -/
def cfgAllFallback : SearchConfig :=
  { providers :=
      { spotify := { enabled := true, priority := 1, timeout := 8000 }
        youtube := { enabled := true, priority := 2, timeout := 15000 }
        soundcloud := { enabled := true, priority := 3, timeout := 10000 } }
    maxResults := 10
    fallbackEnabled := true }

/-- All three providers enabled, `maxResults := 1`, fallback disabled. -/
def cfgAllTightNoFallback : SearchConfig :=
  { providers :=
      { spotify := { enabled := true, priority := 1, timeout := 8000 }
        youtube := { enabled := true, priority := 2, timeout := 15000 }
        soundcloud := { enabled := true, priority := 3, timeout := 10000 } }
    maxResults := 1
    fallbackEnabled := false }

/-- Every adapter fulfils with a missing `tracks` field (no provider
returns a single track). -/
def envAllEmpty : ProviderEnv :=
  { youtube := AdapterOutcome.fulfilled none
    soundcloud := AdapterOutcome.fulfilled none
    spotify := AdapterOutcome.fulfilled none }

/-- The sole enabled provider's adapter rejects. -/
def envSpotifyRejected : ProviderEnv :=
  { youtube := AdapterOutcome.fulfilled none
    soundcloud := AdapterOutcome.fulfilled none
    spotify := AdapterOutcome.rejected "spotify search failed" }

def ytTrackB : YouTubeTrack :=
  { videoId := "vidB", title := "Song B", channelTitle := "Channel B"
    duration := 200, thumbnail := "", publishedAt := "2024-01-01"
    viewCount := 1000 }

def scTrackC : SoundCloudTrack :=
  { id := "scC", title := "Song C", artist := "Artist C", duration := 200
    thumbnail := "", publishedAt := "2024-01-01", playCount := 500
    genre := none, permalink := "pl", waveformUrl := none }

/-- Provider A (spotify) rejects with a timeout, B (youtube) and C
(soundcloud) fulfil with one track each. -/
def envSpotifyTimeout : ProviderEnv :=
  { youtube := AdapterOutcome.fulfilled (some [ytTrackB])
    soundcloud := AdapterOutcome.fulfilled (some [scTrackC])
    spotify := AdapterOutcome.rejected "spotify search timeout" }

/-- Two unified tracks sharing the case-insensitive `(title, artist)` key. -/
def trackDupA : UnifiedTrack :=
  { id := "a", title := "Song", artist := "X", duration := 200
    thumbnail := "", publishedAt := "2024-01-01", popularity := 10
    provider := MusicProvider.spotify, streamUrl := none, genre := none
    permalink := none, waveformUrl := none }

def trackDupB : UnifiedTrack :=
  { id := "b", title := "SONG", artist := "x", duration := 210
    thumbnail := "", publishedAt := "2023-01-01", popularity := 20
    provider := MusicProvider.youtube, streamUrl := none, genre := none
    permalink := none, waveformUrl := none }

/-- A track published long before `trackDupA` (distinct dedup key). -/
def trackOld : UnifiedTrack :=
  { id := "o", title := "Old Song", artist := "Y", duration := 100
    thumbnail := "", publishedAt := "2015-06-01", popularity := 5
    provider := MusicProvider.youtube, streamUrl := none, genre := none
    permalink := none, waveformUrl := none }

/-- A concrete stand-in for `new Date(s).getTime()` that distinguishes the
publication dates used by the C9 witness: the recent date parses to epoch
0, everything else to a hundred billion milliseconds in the past. -/
def dateValDemo : String → ℚ :=
  fun s => if s = "2024-01-01" then 0 else -100000000000

/-- Track used by the clock-dependence counterexample of `scoreTrack`. -/
def trackClock : UnifiedTrack :=
  { id := "i", title := "t", artist := "a", duration := 0, thumbnail := ""
    publishedAt := "pub", popularity := 0
    provider := MusicProvider.spotify, streamUrl := none, genre := none
    permalink := none, waveformUrl := none }

/-- The query the Spotify adapter actually issues for input `"hello"` in
year 2024. -/
def spotifyQueryHello : String := spotifyBuildSearchQuery 2024 "hello"

def rawSpA : RawSpotifyItem :=
  { id := "spA", name := some "Title A", artistNames := some ["Artist A"]
    albumName := some "Album A", albumImageUrl := some ""
    albumGenres := some [], albumReleaseDate := some "2023-01-01"
    duration_ms := some 180000, preview_url := some "https://p/a.mp3"
    externalUrlSpotify := some "", popularity := some 50 }

def rawSpB : RawSpotifyItem :=
  { rawSpA with id := "spB", preview_url := some "https://p/b.mp3" }

/-- A raw item without a preview URL. -/
def rawSpNoPrev : RawSpotifyItem :=
  { rawSpA with id := "spN", preview_url := none }

/-- A raw item with an empty preview URL. -/
def rawSpEmptyPrev : RawSpotifyItem :=
  { rawSpA with id := "spE", preview_url := some "" }

/-- Catalog oracle: the actually-issued query yields one track; every
other query yields nothing. -/
def spotifySearchOA : String → Option (List RawSpotifyItem) :=
  fun q => if q = spotifyQueryHello then some [rawSpA] else some []

/-- Catalog oracle agreeing with `spotifySearchOA` on the actually-issued
query but returning ten tracks on every other (broader/variant) query. -/
def spotifySearchOB : String → Option (List RawSpotifyItem) :=
  fun q =>
    if q = spotifyQueryHello then some [rawSpA]
    else some (List.replicate 10 rawSpB)

/-- Catalog oracle whose hits all lack a usable preview URL. -/
def spotifySearchONoPrev : String → Option (List RawSpotifyItem) :=
  fun _ => some [rawSpNoPrev, rawSpEmptyPrev]

/-- Audio-features oracle returning no features. -/
def featuresNone : List String → List (Option SpotifyAudioFeatures) :=
  fun _ => []

def ytRetryTrack (n : ℕ) : YouTubeTrack :=
  { ytTrackB with videoId := "r" ++ toString n }

/-- YouTube `performSearch` oracle: the initial query strategy finds
nothing, the broader retry finds five tracks. -/
def ytPerformORetry : String → Bool → FilteredYouTubeResponse :=
  fun _ isRetry =>
    if isRetry then
      { tracks := [ytRetryTrack 0, ytRetryTrack 1, ytRetryTrack 2,
          ytRetryTrack 3, ytRetryTrack 4], totalResults := 5 }
    else { tracks := [], totalResults := 0 }

/-! ## Helper lemmas -/

theorem keepFirstByAux_sublist [DecidableEq β] (key : α → β) (l : List α) :
    ∀ seen, (keepFirstByAux key seen l).Sublist l := by
  induction l with
  | nil => intro seen; simp [keepFirstByAux]
  | cons a as ih =>
    intro seen
    by_cases h : key a ∈ seen
    · rw [keepFirstByAux, if_pos h]
      exact (ih seen).cons a
    · rw [keepFirstByAux, if_neg h]
      exact (ih _).cons₂ a

theorem keepFirstByAux_key_not_mem [DecidableEq β] (key : α → β) (l : List α) :
    ∀ seen, ∀ a ∈ keepFirstByAux key seen l, key a ∉ seen := by
  induction l with
  | nil => intro seen a ha; simp [keepFirstByAux] at ha
  | cons b bs ih =>
    intro seen a ha
    by_cases h : key b ∈ seen
    · rw [keepFirstByAux, if_pos h] at ha
      exact ih seen a ha
    · rw [keepFirstByAux, if_neg h] at ha
      rcases List.mem_cons.mp ha with rfl | ha
      · exact h
      · have hnot := ih _ a ha
        exact fun hmem => hnot (List.mem_cons_of_mem _ hmem)

theorem keepFirstByAux_pairwise [DecidableEq β] (key : α → β) (l : List α) :
    ∀ seen,
      (keepFirstByAux key seen l).Pairwise (fun a b => key a ≠ key b) := by
  induction l with
  | nil => intro seen; simp [keepFirstByAux]
  | cons b bs ih =>
    intro seen
    by_cases h : key b ∈ seen
    · rw [keepFirstByAux, if_pos h]
      exact ih seen
    · rw [keepFirstByAux, if_neg h]
      refine List.Pairwise.cons ?_ (ih _)
      intro a ha
      have hnot := keepFirstByAux_key_not_mem key bs _ a ha
      have hne : key a ≠ key b := fun he => hnot (by rw [he]; exact List.mem_cons_self _ _)
      exact hne.symm

theorem keepFirstBy_sublist [DecidableEq β] (key : α → β) (l : List α) :
    (keepFirstBy key l).Sublist l :=
  keepFirstByAux_sublist key l []

theorem keepFirstBy_pairwise [DecidableEq β] (key : α → β) (l : List α) :
    (keepFirstBy key l).Pairwise (fun a b => key a ≠ key b) :=
  keepFirstByAux_pairwise key l []

theorem mem_of_mem_mergeAndRankResults {lg : ℚ → ℚ} {dv : String → ℚ}
    {now : ℚ} {l : List UnifiedTrack} {ctx : String} {m : ℕ}
    {t : UnifiedTrack} (ht : t ∈ mergeAndRankResults lg dv now l ctx m) :
    t ∈ l := by
  simp only [mergeAndRankResults] at ht
  obtain ⟨p, hp, rfl⟩ := List.mem_map.mp ht
  have h1 := (List.take_sublist m _).subset hp
  have h2 := (List.perm_insertionSort _ _).subset h1
  obtain ⟨u, hu, rfl⟩ := List.mem_map.mp h2
  exact (keepFirstBy_sublist dedupKey l).subset hu

theorem pairwise_key_mergeAndRankResults (lg : ℚ → ℚ) (dv : String → ℚ)
    (now : ℚ) (l : List UnifiedTrack) (ctx : String) (m : ℕ) :
    (mergeAndRankResults lg dv now l ctx m).Pairwise
      (fun a b => dedupKey a ≠ dedupKey b) := by
  have h0 := keepFirstBy_pairwise dedupKey l
  have h1 : (List.map
      (fun t => (t, scoreTrack lg dv now t ctx)) (keepFirstBy dedupKey l)).Pairwise
      (fun p q : UnifiedTrack × ℚ => dedupKey p.1 ≠ dedupKey q.1) :=
    List.pairwise_map.mpr h0
  have hsym : Symmetric (fun p q : UnifiedTrack × ℚ => dedupKey p.1 ≠ dedupKey q.1) :=
    fun _ _ h => h.symm
  have h2 := (List.Perm.pairwise_iff (fun h => hsym h) (List.perm_insertionSort
      (fun a b : UnifiedTrack × ℚ => b.2 ≤ a.2)
      (List.map (fun t => (t, scoreTrack lg dv now t ctx))
        (keepFirstBy dedupKey l)))).mpr h1
  have h3 := List.Pairwise.sublist (List.take_sublist m _) h2
  simpa only [mergeAndRankResults, List.pairwise_map] using h3

theorem detectFirst_eq_none {tables : List (String × List String)}
    {input : String}
    (h : ∀ nk ∈ tables, ∀ k ∈ nk.2, jsIncludes input k = false) :
    detectFirst tables input = none := by
  induction tables with
  | nil => rfl
  | cons nk rest ih =>
    have hany : nk.2.any (fun k => jsIncludes input k) = false :=
      List.any_eq_false.mpr (fun k hk => by
        simp [h nk (List.mem_cons_self _ _) k hk])
    simp only [detectFirst, List.findSome?_cons, hany]
    exact ih (fun mk hmk k hk => h mk (List.mem_cons_of_mem _ hmk) k hk)

theorem seqLoop_eq_pure (f : MusicProvider → List UnifiedTrack)
    (fb : Bool) (maxR n : ℕ) (l : List MusicProvider) :
    ∀ ts used, seqLoop (fun p => Except.ok (f p)) fb maxR n l ts used =
      Except.ok (seqLoopPure f fb maxR l (ts, used)) := by
  induction l with
  | nil => intro ts used; rfl
  | cons p rest ih =>
    intro ts used
    simp only [seqLoop, seqLoopPure]
    by_cases h : 0 < (f p).length
    · rw [if_pos h, if_pos h]
      by_cases h2 : maxR ≤ (ts ++ f p).length ∧ fb = false
      · rw [if_pos h2, if_pos h2]
      · rw [if_neg h2, if_neg h2]
        exact ih _ _
    · rw [if_neg h, if_neg h]
      exact ih _ _

theorem seqLoopPure_fb_true (f : MusicProvider → List UnifiedTrack)
    (maxR : ℕ) (l : List MusicProvider) :
    ∀ acc, seqLoopPure f true maxR l acc =
      (acc.1 ++ (l.map f).flatten,
       acc.2 ++ l.filter (fun p => decide (0 < (f p).length))) := by
  induction l with
  | nil => intro acc; simp [seqLoopPure]
  | cons p rest ih =>
    intro acc
    simp only [seqLoopPure]
    by_cases h : 0 < (f p).length
    · have hbreak : ¬(maxR ≤ (acc.1 ++ f p).length ∧ true = false) := by simp
      rw [if_pos h, if_neg hbreak, ih]
      simp [List.filter_cons, h, List.append_assoc]
    · have hfp : f p = [] := List.length_eq_zero.mp (Nat.eq_zero_of_not_pos h)
      rw [if_neg h, ih]
      simp [List.filter_cons, h, hfp]

theorem fallbackPhase_cons
    (sf : MusicProvider → Except String (List UnifiedTrack))
    (p : MusicProvider) (rest : List MusicProvider)
    (st : List UnifiedTrack × List MusicProvider) :
    fallbackPhase sf (p :: rest) st = fallbackPhase sf rest
      (match sf p with
       | Except.error _ => st
       | Except.ok v =>
         if 0 < v.length then
           if p ∉ st.2 then (st.1 ++ v, st.2 ++ [p]) else st
         else st) := by
  simp only [fallbackPhase, List.map_cons, List.foldl_cons]

theorem fallbackPhase_pure (f : MusicProvider → List UnifiedTrack)
    (enabled : List MusicProvider) :
    ∀ st, enabled.Nodup →
      fallbackPhase (fun p => Except.ok (f p)) enabled st =
        (st.1 ++ ((enabled.filter
            (fun p => decide (0 < (f p).length) && decide (p ∉ st.2))).map
              f).flatten,
         st.2 ++ enabled.filter
            (fun p => decide (0 < (f p).length) && decide (p ∉ st.2))) := by
  have hcons : ∀ (p : MusicProvider) (rest : List MusicProvider)
      (st : List UnifiedTrack × List MusicProvider),
      fallbackPhase (fun q => Except.ok (f q)) (p :: rest) st =
        fallbackPhase (fun q => Except.ok (f q)) rest
          (if 0 < (f p).length then
            if p ∉ st.2 then (st.1 ++ f p, st.2 ++ [p]) else st
          else st) := by
    intro p rest st
    rw [fallbackPhase_cons]
  induction enabled with
  | nil => intro st _; simp [fallbackPhase]
  | cons p rest ih =>
    intro st hnd
    obtain ⟨hp, hrest⟩ := List.nodup_cons.mp hnd
    rw [hcons]
    by_cases h1 : 0 < (f p).length
    · by_cases h2 : p ∈ st.2
      · rw [if_pos h1, if_neg (not_not_intro h2), ih st hrest]
        simp [List.filter_cons, h1, h2]
      · rw [if_pos h1, if_pos h2, ih (st.1 ++ f p, st.2 ++ [p]) hrest]
        have hcongr : rest.filter
            (fun q => decide (0 < (f q).length) &&
              decide (q ∉ (st.2 ++ [p]))) =
            rest.filter
            (fun q => decide (0 < (f q).length) && decide (q ∉ st.2)) := by
          apply List.filter_congr
          intro q hq'
          have hqp : q ≠ p := fun he => hp (he ▸ hq')
          simp [List.mem_append, hqp]
        simp only [hcongr]
        simp [List.filter_cons, h1, h2, List.append_assoc]
    · rw [if_neg h1, ih st hrest]
      simp [List.filter_cons, h1]

theorem enabledProvidersList_perm (cfg : SearchConfig) :
    List.Perm (enabledProvidersList cfg)
      (((providersEntries cfg).filter (fun e => e.2.enabled)).map Prod.fst) :=
  List.Perm.map Prod.fst (List.perm_insertionSort _ _)

theorem enabledProvidersList_nodup (cfg : SearchConfig) :
    (enabledProvidersList cfg).Nodup := by
  refine (enabledProvidersList_perm cfg).nodup_iff.mpr ?_
  have hsub : List.Sublist (((providersEntries cfg).filter
      (fun e => e.2.enabled)).map Prod.fst)
      ((providersEntries cfg).map Prod.fst) :=
    (List.filter_sublist _).map Prod.fst
  have hnd : ((providersEntries cfg).map Prod.fst).Nodup := by
    simp [providersEntries]
  exact hnd.sublist hsub

/-- A provider is in the enabled list iff its config entry is enabled. -/
theorem mem_enabledProvidersList {cfg : SearchConfig} {p : MusicProvider} :
    p ∈ enabledProvidersList cfg ↔
      (p = MusicProvider.spotify ∧ cfg.providers.spotify.enabled = true) ∨
      (p = MusicProvider.youtube ∧ cfg.providers.youtube.enabled = true) ∨
      (p = MusicProvider.soundcloud ∧
        cfg.providers.soundcloud.enabled = true) := by
  rw [(enabledProvidersList_perm cfg).mem_iff]
  simp only [List.mem_map, List.mem_filter, providersEntries]
  constructor
  · rintro ⟨e, he, rfl⟩
    simp only [List.mem_cons, List.mem_singleton] at he
    rcases he with ⟨he | he | he, hen⟩ <;> simp_all
  · rintro (⟨rfl, hen⟩ | ⟨rfl, hen⟩ | ⟨rfl, hen⟩)
    · exact ⟨(MusicProvider.spotify, cfg.providers.spotify), by simp [hen], rfl⟩
    · exact ⟨(MusicProvider.youtube, cfg.providers.youtube), by simp [hen], rfl⟩
    · exact ⟨(MusicProvider.soundcloud, cfg.providers.soundcloud),
        by simp [hen], rfl⟩

theorem provider_of_mem_searchProviderE {env : ProviderEnv}
    {p : MusicProvider} {t : UnifiedTrack} (ht : t ∈ searchProviderE env p) :
    t.provider = p := by
  cases p
  case youtube =>
    rcases henv : env.youtube with m | o
    · simp [searchProviderE, searchProviderOutcome, henv] at ht
    · cases o with
      | none => simp [searchProviderE, searchProviderOutcome, henv] at ht
      | some ts =>
        rw [searchProviderE, henv] at ht
        obtain ⟨x, _, rfl⟩ := List.mem_map.mp ht
        rfl
  case soundcloud =>
    rcases henv : env.soundcloud with m | o
    · simp [searchProviderE, searchProviderOutcome, henv] at ht
    · cases o with
      | none => simp [searchProviderE, searchProviderOutcome, henv] at ht
      | some ts =>
        rw [searchProviderE, henv] at ht
        obtain ⟨x, _, rfl⟩ := List.mem_map.mp ht
        rfl
  case spotify =>
    rcases henv : env.spotify with m | o
    · simp [searchProviderE, searchProviderOutcome, henv] at ht
    · cases o with
      | none => simp [searchProviderE, searchProviderOutcome, henv] at ht
      | some ts =>
        rw [searchProviderE, henv] at ht
        obtain ⟨x, _, rfl⟩ := List.mem_map.mp ht
        rfl

/-! ## Claim theorems -/

/-- Claim C8 (confirmed): for the input `"energetic gym workout fast"`
the intent parser returns an intent with environment `"gym"`, speed
`"fast"`, energy `"high"`, vibe `"energetic"`, valence `"positive"` (the
Spotify parser carries all five fields; the YouTube parser agrees on its
shared fields). -/
theorem C8_thm :
    spotifyParseInput "energetic gym workout fast" =
      { vibe := "energetic", environment := "gym", speed := "fast",
        energy := "high", valence := "positive", genre := "" } ∧
    (ytParseInput "energetic gym workout fast").environment = "gym" ∧
    (ytParseInput "energetic gym workout fast").speed = "fast" ∧
    (ytParseInput "energetic gym workout fast").vibe = "energetic" := by
  decide

/-- Claim C7 (counterexample to the claim as stated): the input
`"hello"` matches no speed keyword, yet the YouTube adapter's parser
returns speed `""`, not the claimed default `"medium"`. -/
theorem C7_counterexample :
    (allSpeedKeywords.all fun kw => !(jsIncludes (jsToLower "hello") kw))
        = true ∧
    (ytParseInput "hello").speed ≠ "medium" := by
  decide

/-- Claim C7 (amended): on inputs matching no speed keyword, the Spotify
parser defaults speed to `"medium"` while the YouTube and SoundCloud
parsers default it to the empty string. -/
theorem C7_amended_thm (input : String)
    (h : ∀ kw ∈ allSpeedKeywords, jsIncludes (jsToLower input) kw = false) :
    (spotifyParseInput input).speed = "medium" ∧
    (ytParseInput input).speed = "" ∧
    (scParseInput input).speed = "" := by
  have hnone : detectFirst speedsTable (jsToLower input) = none := by
    apply detectFirst_eq_none
    intro nk hnk k hk
    apply h
    rw [allSpeedKeywords]
    exact List.mem_flatten.mpr ⟨nk.2, List.mem_map.mpr ⟨nk, hnk, rfl⟩, hk⟩
  refine ⟨?_, ?_, ?_⟩ <;>
    simp [spotifyParseInput, ytParseInput, scParseInput, hnone]

/-- Witness for the amended C7 at the concrete input `"hello"`. -/
theorem C7_amended_witness :
    (spotifyParseInput "hello").speed = "medium" ∧
    (ytParseInput "hello").speed = "" ∧
    (scParseInput "hello").speed = "" :=
  C7_amended_thm "hello" (by decide)

/-- Claim C9 (counterexample to the claim as stated): with the raw input
and all provider responses fixed, the pipeline is still not deterministic
as a function of them — the YouTube query builder consumes a
`Math.random()` draw (different draws give different query strings), and
the aggregator's `scoreTrack` reads `Date.now()` (different clock instants
give different scores for the same track and context). -/
theorem C9_counterexample :
    ytGenerateSearchQuery (mkRat 3 5) "hello" false ≠
      ytGenerateSearchQuery (mkRat 2 5) "hello" false ∧
    scoreTrack lgZero dateValZero 0 trackClock "x" ≠
      scoreTrack lgZero dateValZero 1000000000000 trackClock "x" := by
  constructor
  · decide
  · have h1 : monthsAgoOf dateValZero 0 trackClock.publishedAt < 12 := by
      norm_num [monthsAgoOf, dateValZero]
    have h2 : ¬ monthsAgoOf dateValZero 1000000000000
        trackClock.publishedAt < 12 := by
      norm_num [monthsAgoOf, dateValZero]
    simp only [scoreTrack, if_pos h1, if_neg h2]
    intro h
    have h2ne : (2 : ℚ) ≠ 0 := by norm_num
    exact h2ne (by linarith)

/-- Claim C9 (amended): `parse` is a pure function of the raw input, and
the scoring/ranking pipeline is deterministic once the clock observation
is fixed: two clock instants that agree on every track's
recency-cutoff comparison produce the identical merged ranking. -/
theorem C9_amended_thm (lg : ℚ → ℚ) (dv : String → ℚ)
    (tracks : List UnifiedTrack) (ctx : String) (m : ℕ) (now now' : ℚ)
    (h : ∀ t ∈ tracks,
      (monthsAgoOf dv now t.publishedAt < 12 ↔
       monthsAgoOf dv now' t.publishedAt < 12)) :
    mergeAndRankResults lg dv now tracks ctx m =
      mergeAndRankResults lg dv now' tracks ctx m := by
  have hscore : ∀ t ∈ keepFirstBy dedupKey tracks,
      scoreTrack lg dv now t ctx = scoreTrack lg dv now' t ctx := by
    intro t ht
    have h' := h t ((keepFirstBy_sublist dedupKey tracks).subset ht)
    simp only [scoreTrack]
    by_cases hc : monthsAgoOf dv now t.publishedAt < 12
    · rw [if_pos hc, if_pos (h'.mp hc)]
    · rw [if_neg hc, if_neg (fun hcc => hc (h'.mpr hcc))]
  have hmap : (keepFirstBy dedupKey tracks).map
      (fun t => (t, scoreTrack lg dv now t ctx)) =
      (keepFirstBy dedupKey tracks).map
      (fun t => (t, scoreTrack lg dv now' t ctx)) :=
    List.map_congr_left (fun a ha => by rw [hscore a ha])
  simp only [mergeAndRankResults, hmap]

/-- Witness for the amended C9: two clock instants one month apart,
ranking two tracks with distinct dedup keys — one published recently
(inside the 12-month recency window at both instants), one published long
ago (outside it at both) — produce the identical merged ranking. -/
theorem C9_amended_witness :
    mergeAndRankResults lgZero dateValDemo 0 [trackDupA, trackOld] "x" 10 =
      mergeAndRankResults lgZero dateValDemo 2592000000
        [trackDupA, trackOld] "x" 10 :=
  C9_amended_thm lgZero dateValDemo [trackDupA, trackOld] "x" 10
    0 2592000000
    (by
      intro t ht
      rcases List.mem_cons.mp ht with rfl | ht
      · exact iff_of_true
          (by norm_num [monthsAgoOf, dateValDemo, trackDupA])
          (by norm_num [monthsAgoOf, dateValDemo, trackDupA])
      · rcases List.mem_cons.mp ht with rfl | ht
        · exact iff_of_false
            (by norm_num [monthsAgoOf, dateValDemo, trackOld,
              show ("2015-06-01" : String) ≠ "2024-01-01" from by decide])
            (by norm_num [monthsAgoOf, dateValDemo, trackOld,
              show ("2015-06-01" : String) ≠ "2024-01-01" from by decide])
        · exact absurd ht (List.not_mem_nil t))

/-- Claim C1 (counterexample to the claim as stated): with one enabled
provider that returns zero tracks, `searchMusic` fulfils with a plain
empty-track success — indistinguishable by status from "zero results" —
instead of surfacing a "no providers available" error. -/
theorem C1_counterexample :
    respIsOk (searchMusic lgZero dateValZero envAllEmpty "x"
      cfgOnlySpotify 0 0) = true ∧
    respTracks (searchMusic lgZero dateValZero envAllEmpty "x"
      cfgOnlySpotify 0 0) = [] ∧
    respProviders (searchMusic lgZero dateValZero envAllEmpty "x"
      cfgOnlySpotify 0 0) = [] := by
  decide

/-- Claim C1 (amended): `searchMusic` raises the explicit
`"No music providers enabled"` error exactly when zero providers are
enabled; when at least one provider is enabled but every provider search
comes back empty (failure, misconfiguration, or no hits alike), the call
returns an ordinary success with no tracks and no providers. -/
theorem C1_amended_thm (lg : ℚ → ℚ) (dv : String → ℚ) (env : ProviderEnv)
    (input : String) (cfg : SearchConfig) (now st : ℚ)
    (hempty : ∀ p, searchProviderE env p = []) :
    (enabledProvidersList cfg = [] →
      searchMusic lg dv env input cfg now st =
        Except.error "No music providers enabled") ∧
    (enabledProvidersList cfg ≠ [] →
      searchMusic lg dv env input cfg now st =
        Except.ok { tracks := [], totalResults := 0, providers := [],
                    searchTime := st }) := by
  constructor
  · intro h
    simp [searchMusic, searchMusicGen, h]
  · intro h
    have hlen : ¬ (enabledProvidersList cfg).length = 0 :=
      fun hh => h (List.length_eq_zero.mp hh)
    have hseq : ∀ (l : List MusicProvider)
        (acc : List UnifiedTrack × List MusicProvider),
        seqLoopPure (searchProviderE env) cfg.fallbackEnabled
          cfg.maxResults l acc = acc := by
      intro l
      induction l with
      | nil => intro acc; rfl
      | cons p rest ih =>
        intro acc
        simp only [seqLoopPure, hempty p]
        simpa using ih acc
    have hfb : fallbackPhase (fun p => Except.ok (searchProviderE env p))
        (enabledProvidersList cfg) ([], []) = ([], []) := by
      rw [fallbackPhase_pure _ _ _ (enabledProvidersList_nodup cfg)]
      simp [hempty]
    unfold searchMusic searchMusicGen
    rw [if_neg hlen, seqLoop_eq_pure, hseq]
    by_cases hcond : cfg.fallbackEnabled = true ∧
        1 < (enabledProvidersList cfg).length
    · simp [hcond, hfb, mergeAndRankResults, keepFirstBy, keepFirstByAux]
    · simp [hcond, mergeAndRankResults, keepFirstBy, keepFirstByAux]

/-- Witness for the amended C1: the error case at a zero-enabled config
and the empty-success case at a one-enabled config. -/
theorem C1_amended_witness :
    searchMusic lgZero dateValZero envAllEmpty "x" cfgNoneEnabled 0 0 =
      Except.error "No music providers enabled" ∧
    searchMusic lgZero dateValZero envAllEmpty "x" cfgOnlySpotify 0 0 =
      Except.ok { tracks := [], totalResults := 0, providers := [],
                  searchTime := 0 } :=
  ⟨(C1_amended_thm lgZero dateValZero envAllEmpty "x" cfgNoneEnabled 0 0
      (by intro p; cases p <;> rfl)).1 (by decide),
   (C1_amended_thm lgZero dateValZero envAllEmpty "x" cfgOnlySpotify 0 0
      (by intro p; cases p <;> rfl)).2 (by decide)⟩

/-- Claim C2 (the code at the claim's failing input): a single enabled
provider, fallback disabled, and an adapter rejection — yet `searchMusic`
fulfils with an empty success instead of surfacing the adapter error.
`searchProvider` catches every adapter rejection and returns `[]`, so the
`throw error` branch of `searchMusic` (and its comment "If this was our
only provider and fallback is disabled, throw error") is unreachable. -/
theorem C2_code_behavior :
    respIsOk (searchMusic lgZero dateValZero envSpotifyRejected "x"
      cfgSingleNoFallback 0 0) = true ∧
    respTracks (searchMusic lgZero dateValZero envSpotifyRejected "x"
      cfgSingleNoFallback 0 0) = [] ∧
    respProviders (searchMusic lgZero dateValZero envSpotifyRejected "x"
      cfgSingleNoFallback 0 0) = [] := by
  decide

theorem find_first_mem_keepFirstByAux [DecidableEq β] (key : α → β)
    (l : List α) :
    ∀ (k : β), (∃ x ∈ l, key x = k) → ∀ seen, k ∉ seen →
      ∃ u, l.find? (fun x => decide (key x = k)) = some u ∧
        u ∈ keepFirstByAux key seen l := by
  induction l with
  | nil =>
    rintro k ⟨x, hx, _⟩
    exact absurd hx (List.not_mem_nil x)
  | cons a as ih =>
    rintro k ⟨x, hx, hkx⟩ seen hks
    by_cases hka : key a = k
    · refine ⟨a, List.find?_cons_of_pos _ (by simp [hka]), ?_⟩
      rw [keepFirstByAux, if_neg (hka ▸ hks)]
      exact List.mem_cons_self _ _
    · have hx' : x ∈ as := by
        rcases List.mem_cons.mp hx with rfl | h
        · exact absurd hkx hka
        · exact h
      have hfind : (a :: as).find? (fun x => decide (key x = k)) =
          as.find? (fun x => decide (key x = k)) :=
        List.find?_cons_of_neg as (by simp [hka])
      by_cases hseen : key a ∈ seen
      · rw [keepFirstByAux, if_pos hseen]
        obtain ⟨u, hu1, hu2⟩ := ih k ⟨x, hx', hkx⟩ seen hks
        exact ⟨u, by rw [hfind]; exact hu1, hu2⟩
      · rw [keepFirstByAux, if_neg hseen]
        obtain ⟨u, hu1, hu2⟩ := ih k ⟨x, hx', hkx⟩ (key a :: seen) (by
          intro hmem
          rcases List.mem_cons.mp hmem with he | he
          · exact hka he.symm
          · exact hks he)
        exact ⟨u, by rw [hfind]; exact hu1, List.mem_cons_of_mem _ hu2⟩

theorem respTracks_cases (lg : ℚ → ℚ) (dv : String → ℚ) (env : ProviderEnv)
    (input : String) (cfg : SearchConfig) (now st : ℚ) :
    respTracks (searchMusic lg dv env input cfg now st) = [] ∨
    ∃ L, respTracks (searchMusic lg dv env input cfg now st) =
      mergeAndRankResults lg dv now L input cfg.maxResults := by
  unfold searchMusic searchMusicGen
  by_cases h0 : (enabledProvidersList cfg).length = 0
  · left
    simp [h0, respTracks]
  · right
    rw [if_neg h0, seqLoop_eq_pure]
    refine ⟨(if (seqLoopPure (searchProviderE env) cfg.fallbackEnabled
        cfg.maxResults (enabledProvidersList cfg) ([], [])).1.length < 3 ∧
        cfg.fallbackEnabled = true ∧ 1 < (enabledProvidersList cfg).length
      then fallbackPhase (fun p => Except.ok (searchProviderE env p))
        (enabledProvidersList cfg)
        (seqLoopPure (searchProviderE env) cfg.fallbackEnabled cfg.maxResults
          (enabledProvidersList cfg) ([], []))
      else seqLoopPure (searchProviderE env) cfg.fallbackEnabled cfg.maxResults
        (enabledProvidersList cfg) ([], [])).1, ?_⟩
    simp [respTracks]

/-- Claim C3 (counterexample to the claim as stated): three enabled
providers, A (spotify) rejects, B (youtube) and C (soundcloud) would both
return a track — but with fallback disabled and `maxResults` already
reached after B, the sequential loop stops early and C never appears in
the returned providers list. -/
theorem C3_counterexample :
    searchProviderE envSpotifyTimeout MusicProvider.spotify = [] ∧
    searchProviderE envSpotifyTimeout MusicProvider.youtube ≠ [] ∧
    searchProviderE envSpotifyTimeout MusicProvider.soundcloud ≠ [] ∧
    respProviders (searchMusic lgZero dateValZero envSpotifyTimeout "x"
      cfgAllTightNoFallback 0 0) = [MusicProvider.youtube] ∧
    MusicProvider.soundcloud ∉ respProviders (searchMusic lgZero dateValZero
      envSpotifyTimeout "x" cfgAllTightNoFallback 0 0) := by
  decide

/-- Claim C3 (amended): with three enabled providers, fallback enabled,
provider A's search producing nothing and every other provider producing
tracks, `searchMusic` fulfils (no exception), every returned track's
provider differs from A, and the providers list contains every provider
other than A but not A. -/
theorem C3_amended_thm (lg : ℚ → ℚ) (dv : String → ℚ) (env : ProviderEnv)
    (input : String) (cfg : SearchConfig) (now st : ℚ) (a : MusicProvider)
    (hsp : cfg.providers.spotify.enabled = true)
    (hyt : cfg.providers.youtube.enabled = true)
    (hsc : cfg.providers.soundcloud.enabled = true)
    (hfb : cfg.fallbackEnabled = true)
    (ha : searchProviderE env a = [])
    (hbc : ∀ b, b ≠ a → searchProviderE env b ≠ []) :
    ∃ r, searchMusic lg dv env input cfg now st = Except.ok r ∧
      (∀ t ∈ r.tracks, t.provider ≠ a) ∧
      a ∉ r.providers ∧
      (∀ b, b ≠ a → b ∈ r.providers) := by
  have henb : ∀ b : MusicProvider, b ∈ enabledProvidersList cfg := by
    intro b
    cases b
    · exact mem_enabledProvidersList.mpr (Or.inr (Or.inl ⟨rfl, hyt⟩))
    · exact mem_enabledProvidersList.mpr (Or.inr (Or.inr ⟨rfl, hsc⟩))
    · exact mem_enabledProvidersList.mpr (Or.inl ⟨rfl, hsp⟩)
  have hlen : ¬ (enabledProvidersList cfg).length = 0 := by
    intro hh
    have hmem := henb MusicProvider.spotify
    rw [List.length_eq_zero.mp hh] at hmem
    exact absurd hmem (List.not_mem_nil _)
  have hseq : seqLoopPure (searchProviderE env) cfg.fallbackEnabled
      cfg.maxResults (enabledProvidersList cfg) ([], []) =
      (((enabledProvidersList cfg).map (searchProviderE env)).flatten,
       (enabledProvidersList cfg).filter
         (fun p => decide (0 < (searchProviderE env p).length))) := by
    rw [hfb]
    simpa using seqLoopPure_fb_true (searchProviderE env) cfg.maxResults
      (enabledProvidersList cfg) ([], [])
  have hfb0 : fallbackPhase (fun p => Except.ok (searchProviderE env p))
      (enabledProvidersList cfg)
      (((enabledProvidersList cfg).map (searchProviderE env)).flatten,
       (enabledProvidersList cfg).filter
         (fun p => decide (0 < (searchProviderE env p).length))) =
      (((enabledProvidersList cfg).map (searchProviderE env)).flatten,
       (enabledProvidersList cfg).filter
         (fun p => decide (0 < (searchProviderE env p).length))) := by
    rw [fallbackPhase_pure (searchProviderE env) (enabledProvidersList cfg) _
      (enabledProvidersList_nodup cfg)]
    have hnil : (enabledProvidersList cfg).filter
        (fun p => decide (0 < (searchProviderE env p).length) &&
          decide (p ∉ ((enabledProvidersList cfg).filter
            (fun q => decide (0 < (searchProviderE env q).length))))) = [] := by
      rw [List.filter_eq_nil_iff]
      intro p hp
      by_cases hl : 0 < (searchProviderE env p).length
      · have hmem : p ∈ (enabledProvidersList cfg).filter
            (fun q => decide (0 < (searchProviderE env q).length)) :=
          List.mem_filter.mpr ⟨hp, by simpa using hl⟩
        simp [hl, hmem]
      · simp [hl]
    rw [hnil]
    simp
  have hmain : searchMusic lg dv env input cfg now st = Except.ok
      { tracks := mergeAndRankResults lg dv now
          (((enabledProvidersList cfg).map (searchProviderE env)).flatten)
          input cfg.maxResults
        totalResults := (mergeAndRankResults lg dv now
          (((enabledProvidersList cfg).map (searchProviderE env)).flatten)
          input cfg.maxResults).length
        providers := (enabledProvidersList cfg).filter
          (fun p => decide (0 < (searchProviderE env p).length))
        searchTime := st } := by
    unfold searchMusic searchMusicGen
    rw [if_neg hlen, seqLoop_eq_pure, hseq]
    by_cases hcond :
        (((enabledProvidersList cfg).map (searchProviderE env)).flatten).length
          < 3 ∧ cfg.fallbackEnabled = true ∧
          1 < (enabledProvidersList cfg).length
    · simp only [if_pos hcond, hfb0]
    · simp only [if_neg hcond]
  refine ⟨_, hmain, ?_, ?_, ?_⟩
  · intro t ht
    have h1 := mem_of_mem_mergeAndRankResults ht
    obtain ⟨L, hL, htL⟩ := List.mem_flatten.mp h1
    obtain ⟨p, _, rfl⟩ := List.mem_map.mp hL
    have hprov := provider_of_mem_searchProviderE htL
    rw [hprov]
    intro he
    rw [he, ha] at htL
    exact absurd htL (List.not_mem_nil t)
  · intro hmem
    have hl := (List.mem_filter.mp hmem).2
    rw [ha] at hl
    simp at hl
  · intro b hb
    refine List.mem_filter.mpr ⟨henb b, ?_⟩
    have hl : 0 < (searchProviderE env b).length :=
      List.length_pos.mpr (hbc b hb)
    simpa using hl

/-- Witness for the amended C3 at a concrete environment (spotify fails,
youtube and soundcloud deliver, fallback enabled). -/
theorem C3_amended_witness :
    ∃ r, searchMusic lgZero dateValZero envSpotifyTimeout "x"
        cfgAllFallback 0 0 = Except.ok r ∧
      (∀ t ∈ r.tracks, t.provider ≠ MusicProvider.spotify) ∧
      MusicProvider.spotify ∉ r.providers ∧
      (∀ b, b ≠ MusicProvider.spotify → b ∈ r.providers) :=
  C3_amended_thm lgZero dateValZero envSpotifyTimeout "x" cfgAllFallback 0 0
    MusicProvider.spotify rfl rfl rfl rfl (by rfl)
    (by
      intro b hb
      cases b
      · decide
      · decide
      · exact absurd rfl hb)

/-- Claim C4 (confirmed): the cross-provider merge dedups by the
case-insensitive `(title, artist)` composite key keeping the first
occurrence in accumulation order (for every accumulated list, the first
element carrying a given key survives into the deduped list), and in
every track list returned by `searchMusic` no two tracks share the same
case-insensitive `(title, artist)` pair. -/
theorem C4_thm (lg : ℚ → ℚ) (dv : String → ℚ) (env : ProviderEnv)
    (input : String) (cfg : SearchConfig) (now st : ℚ) :
    (∀ (l : List UnifiedTrack) (t : UnifiedTrack), t ∈ l →
      ∃ u, l.find? (fun x => decide (dedupKey x = dedupKey t)) = some u ∧
        u ∈ keepFirstBy dedupKey l) ∧
    List.Pairwise
      (fun a b => ¬(jsToLower a.title = jsToLower b.title ∧
        jsToLower a.artist = jsToLower b.artist))
      (respTracks (searchMusic lg dv env input cfg now st)) := by
  constructor
  · intro l t ht
    exact find_first_mem_keepFirstByAux dedupKey l (dedupKey t)
      ⟨t, ht, rfl⟩ [] (List.not_mem_nil _)
  · have hkey : ∀ (L : List UnifiedTrack),
        List.Pairwise (fun a b => dedupKey a ≠ dedupKey b) L →
        List.Pairwise (fun a b => ¬(jsToLower a.title = jsToLower b.title ∧
          jsToLower a.artist = jsToLower b.artist)) L := by
      intro L hL
      refine hL.imp ?_
      rintro a b hab ⟨ht, har⟩
      exact hab (by rw [dedupKey, dedupKey, ht, har])
    rcases respTracks_cases lg dv env input cfg now st with hcase | ⟨L, hcase⟩
    · rw [hcase]
      exact List.Pairwise.nil
    · rw [hcase]
      exact hkey _ (pairwise_key_mergeAndRankResults lg dv now L input
        cfg.maxResults)

/-- Witness for C4: the first-occurrence clause at a concrete duplicate
pair (the second conjunct is hypothesis-free). -/
theorem C4_witness :
    (∃ u, [trackDupA, trackDupB].find?
        (fun x => decide (dedupKey x = dedupKey trackDupB)) = some u ∧
      u ∈ keepFirstBy dedupKey [trackDupA, trackDupB]) ∧
    List.Pairwise
      (fun a b => ¬(jsToLower a.title = jsToLower b.title ∧
        jsToLower a.artist = jsToLower b.artist))
      (respTracks (searchMusic lgZero dateValZero envSpotifyTimeout "x"
        cfgAllFallback 0 0)) :=
  ⟨(C4_thm lgZero dateValZero envSpotifyTimeout "x" cfgAllFallback 0 0).1
      [trackDupA, trackDupB] trackDupB (by decide),
   (C4_thm lgZero dateValZero envSpotifyTimeout "x" cfgAllFallback 0 0).2⟩

/-- Claim C5 (confirmed): the parallel fallback phase changes the outcome
of `searchMusic` exactly when, after the sequential phase, fewer than 3
tracks are accumulated, fallback is enabled, and more than one provider is
enabled; the join is settle-all over every enabled provider (the always-
fulfilling `searchProvider` results are all collected, none aborts the
join), and exactly the not-yet-contributing providers with non-empty
results are merged in, in enabled order. -/
theorem C5_thm (lg : ℚ → ℚ) (dv : String → ℚ) (env : ProviderEnv)
    (input : String) (cfg : SearchConfig) (now st : ℚ)
    (hne : ¬ (enabledProvidersList cfg).length = 0) :
    ((¬((seqResult env cfg).1.length < 3 ∧ cfg.fallbackEnabled = true ∧
        1 < (enabledProvidersList cfg).length)) →
      searchMusic lg dv env input cfg now st = Except.ok
        { tracks := mergeAndRankResults lg dv now (seqResult env cfg).1
            input cfg.maxResults
          totalResults := (mergeAndRankResults lg dv now
            (seqResult env cfg).1 input cfg.maxResults).length
          providers := (seqResult env cfg).2
          searchTime := st }) ∧
    (((seqResult env cfg).1.length < 3 ∧ cfg.fallbackEnabled = true ∧
        1 < (enabledProvidersList cfg).length) →
      searchMusic lg dv env input cfg now st = Except.ok
        { tracks := mergeAndRankResults lg dv now
            ((seqResult env cfg).1 ++
              (((enabledProvidersList cfg).filter
                (fun p => decide (0 < (searchProviderE env p).length) &&
                  decide (p ∉ (seqResult env cfg).2))).map
                    (searchProviderE env)).flatten)
            input cfg.maxResults
          totalResults := (mergeAndRankResults lg dv now
            ((seqResult env cfg).1 ++
              (((enabledProvidersList cfg).filter
                (fun p => decide (0 < (searchProviderE env p).length) &&
                  decide (p ∉ (seqResult env cfg).2))).map
                    (searchProviderE env)).flatten)
            input cfg.maxResults).length
          providers := (seqResult env cfg).2 ++
            (enabledProvidersList cfg).filter
              (fun p => decide (0 < (searchProviderE env p).length) &&
                decide (p ∉ (seqResult env cfg).2))
          searchTime := st }) := by
  have hs : seqLoopPure (searchProviderE env) cfg.fallbackEnabled
      cfg.maxResults (enabledProvidersList cfg) ([], []) =
      seqResult env cfg := rfl
  constructor
  · intro hcond
    unfold searchMusic searchMusicGen
    rw [if_neg hne, seqLoop_eq_pure, hs]
    simp only [if_neg hcond]
  · intro hcond
    unfold searchMusic searchMusicGen
    rw [if_neg hne, seqLoop_eq_pure, hs]
    simp only [if_pos hcond]
    rw [fallbackPhase_pure (searchProviderE env) (enabledProvidersList cfg)
      (seqResult env cfg) (enabledProvidersList_nodup cfg)]

/-- Witness for C5: a run in which the fallback condition holds (empty
sequential phase, fallback enabled, three enabled providers). -/
theorem C5_witness :
    searchMusic lgZero dateValZero envAllEmpty "x" cfgAllFallback 0 0 =
      Except.ok
        { tracks := mergeAndRankResults lgZero dateValZero 0
            ((seqResult envAllEmpty cfgAllFallback).1 ++
              (((enabledProvidersList cfgAllFallback).filter
                (fun p => decide
                    (0 < (searchProviderE envAllEmpty p).length) &&
                  decide (p ∉ (seqResult envAllEmpty cfgAllFallback).2))).map
                    (searchProviderE envAllEmpty)).flatten)
            "x" cfgAllFallback.maxResults
          totalResults := (mergeAndRankResults lgZero dateValZero 0
            ((seqResult envAllEmpty cfgAllFallback).1 ++
              (((enabledProvidersList cfgAllFallback).filter
                (fun p => decide
                    (0 < (searchProviderE envAllEmpty p).length) &&
                  decide (p ∉ (seqResult envAllEmpty cfgAllFallback).2))).map
                    (searchProviderE envAllEmpty)).flatten)
            "x" cfgAllFallback.maxResults).length
          providers := (seqResult envAllEmpty cfgAllFallback).2 ++
            (enabledProvidersList cfgAllFallback).filter
              (fun p => decide (0 < (searchProviderE envAllEmpty p).length) &&
                decide (p ∉ (seqResult envAllEmpty cfgAllFallback).2))
          searchTime := 0 } :=
  (C5_thm lgZero dateValZero envAllEmpty "x" cfgAllFallback 0 0
    (by decide)).2 (by decide)

/-- Claim C6 (counterexample to the claim as stated): not every adapter
retries on too-few results. The Spotify adapter's result depends only on
the single query it issues: two catalogs agreeing on that query — one
empty elsewhere, one with ten tracks on every other (broader or variant)
query — produce the identical output of just 1 track (< 5), so no broader
second query is consulted. -/
theorem C6_counterexample :
    (spRespTracks (spotifySearchMusic spotifySearchOA featuresNone true
      2024 "hello")).length < 5 ∧
    (spRespTracks (spotifySearchMusic spotifySearchOA featuresNone true
        2024 "hello")).map (fun t => t.id) =
      (spRespTracks (spotifySearchMusic spotifySearchOB featuresNone true
        2024 "hello")).map (fun t => t.id) := by
  decide

/-- Claim C6 (amended): the YouTube adapter implements the retry ladder —
fewer than 5 tracks from the initial query triggers the broader retry;
fewer than 5 again triggers the `"playlist mix"` variant whose results
are unioned with the retry's, deduplicated by `videoId`, and cut to 10 —
while the Spotify adapter issues a single query (its result depends only
on the catalog's answer to that one query). -/
theorem C6_amended_thm :
    (∀ (po : String → Bool → FilteredYouTubeResponse) (input : String),
      (po input false).tracks.length < 5 →
      ((5 ≤ (po input true).tracks.length →
        ytSearchMusic po input = po input true) ∧
       ((po input true).tracks.length < 5 →
        (ytSearchMusic po input).tracks =
          (keepFirstBy (fun t : YouTubeTrack => t.videoId)
            ((po input true).tracks ++
             (po (input ++ " playlist mix") true).tracks)).take 10))) ∧
    (∀ (sA sB : String → Option (List RawSpotifyItem))
       (fo : List String → List (Option SpotifyAudioFeatures))
       (cy : ℤ) (input : String),
      sA (spotifyBuildSearchQuery cy input) =
        sB (spotifyBuildSearchQuery cy input) →
      spotifySearchMusic sA fo true cy input =
        spotifySearchMusic sB fo true cy input) := by
  constructor
  · intro po input h1
    constructor
    · intro h2
      rw [ytSearchMusic]
      rw [if_pos h1, if_neg (Nat.not_lt.mpr h2)]
    · intro h2
      simp only [ytSearchMusic, if_pos h1, if_pos h2]
  · intro sA sB fo cy input hagree
    simp only [spotifySearchMusic, hagree]

/-- Witness for the amended C6: a YouTube oracle whose initial query
finds nothing and whose broader retry finds five tracks — the adapter's
answer is the retry's response. -/
theorem C6_amended_witness :
    ytSearchMusic ytPerformORetry "x" = ytPerformORetry "x" true :=
  (C6_amended_thm.1 ytPerformORetry "x" (by decide)).1 (by decide)

/-- Claim C10 (confirmed): the Spotify adapter returns only tracks with a
non-empty preview URL; when every catalog hit lacks a usable preview URL
the adapter returns the empty response with `totalResults` 0 even though
the catalog matched the query. -/
theorem C10_thm (searchO : String → Option (List RawSpotifyItem))
    (fo : List String → List (Option SpotifyAudioFeatures))
    (cy : ℤ) (input : String) :
    (∀ t ∈ spRespTracks (spotifySearchMusic searchO fo true cy input),
      t.previewUrl ≠ "") ∧
    (∀ items, searchO (spotifyBuildSearchQuery cy input) = some items →
      (∀ t ∈ items, spotifyHasPreview t = false) →
      spotifySearchMusic searchO fo true cy input =
        Except.ok { tracks := [], totalResults := 0 }) := by
  constructor
  · intro t ht
    rcases hq : searchO (spotifyBuildSearchQuery cy input) with _ | items
    · simp [spotifySearchMusic, hq, spRespTracks] at ht
    · by_cases hlen : items.length = 0
      · simp [spotifySearchMusic, hq, hlen, spRespTracks] at ht
      · by_cases hflen : (items.filter spotifyHasPreview).length = 0
        · simp [spotifySearchMusic, hq, hlen, hflen, spRespTracks] at ht
        · simp only [spotifySearchMusic, hq, if_neg hlen, if_neg hflen,
            if_neg (show ¬(true = false) by decide), spRespTracks] at ht
          obtain ⟨pair, hpair, rfl⟩ := List.mem_map.mp ht
          have h1 := (List.take_sublist 10 _).subset hpair
          have h2 := (List.perm_insertionSort _ _).subset h1
          obtain ⟨tt, htt, rfl⟩ := List.mem_map.mp h2
          obtain ⟨i, hi, rfl⟩ := List.exists_of_mem_mapIdx htt
          have hraw : (items.filter spotifyHasPreview)[i] ∈
              items.filter spotifyHasPreview := List.getElem_mem hi
          have hprev := (List.mem_filter.mp hraw).2
          rw [spotifyHasPreview] at hprev
          rcases hpu : (items.filter spotifyHasPreview)[i].preview_url with
            _ | s
          · rw [hpu] at hprev
            simp at hprev
          · rw [hpu] at hprev
            have hslen : 0 < s.length := by simpa using hprev
            have hs : s ≠ "" := by
              intro he
              rw [he] at hslen
              simp at hslen
            simp [spotifyTransformTrack, jsOrDefault, hpu, hs]
  · intro items hq hprev
    have hnil : items.filter spotifyHasPreview = [] :=
      List.filter_eq_nil_iff.mpr (fun a ha => by simp [hprev a ha])
    by_cases hlen : items.length = 0
    · simp [spotifySearchMusic, hq, hlen]
    · simp [spotifySearchMusic, hq, hlen, hnil]

/-- Witness for C10: a catalog whose two hits both lack a usable preview
URL yields the empty response. -/
theorem C10_witness :
    spotifySearchMusic spotifySearchONoPrev featuresNone true 2024
      "hello" = Except.ok { tracks := [], totalResults := 0 } :=
  (C10_thm spotifySearchONoPrev featuresNone 2024 "hello").2
    [rawSpNoPrev, rawSpEmptyPrev] rfl (by decide)
